import Mathlib

/-!
# LiteSim — verification of the natural-language specification

Shallow embedding, in Lean 4, of the parts of the LiteSim repository that the
frozen claims are about:

* `src/utils.py` — `normalize_angles`, `rpy_to_matrix`;
* `src/config.py` — the vendor-SDK probe;
* `src/gui_qt.py` — `_preflight_script`, `_add_to_history`, `_handle_collision`,
  `_update_3d_loop`, `_home`;
* the seven bundled motion scripts in `src/examples/`.

Python floats are modelled by `ℚ` where the code only adds, multiplies,
divides and compares (exact over the rationals), and by `ℝ` where the code
calls `math.sin` / `math.cos` (modelled by `Real.sin` / `Real.cos`).
Python's `%` on a positive float divisor is value-with-sign-of-divisor,
i.e. `a - m * ⌊a / m⌋`.

Some constants referenced throughout the code (`config.JOINT_LIMITS`,
`config.EXAMPLES_DIR`, the speed/acceleration ceilings) are absent from the
`config.py` present in source form; they are modelled from the specification
and marked `Modelled from the spec:` below.
-/

open scoped Matrix

namespace LiteSim

/-! ## `src/utils.py` -/

/-- Python `%` with a positive divisor, as applied to floats:
the result has the sign of the divisor, `a % m = a - m * ⌊a / m⌋`. -/
def pyMod (a m : ℚ) : ℚ := a - m * (⌊a / m⌋ : ℤ)

/-- Embeds `utils.normalize_angles`: element-wise `(a + 180) % 360 - 180`,
collecting results in input order. -/
def normalize_angles (angles_deg : List ℚ) : List ℚ :=
  angles_deg.map (fun a => pyMod (a + 180) 360 - 180)

theorem pyMod_eq_fract (a m : ℚ) (hm : m ≠ 0) : pyMod a m = m * Int.fract (a / m) := by
  unfold pyMod Int.fract
  field_simp

theorem pyMod_nonneg (a m : ℚ) (hm : 0 < m) : 0 ≤ pyMod a m := by
  rw [pyMod_eq_fract a m hm.ne']
  exact mul_nonneg hm.le (Int.fract_nonneg _)

theorem pyMod_lt (a m : ℚ) (hm : 0 < m) : pyMod a m < m := by
  rw [pyMod_eq_fract a m hm.ne']
  calc m * Int.fract (a / m) < m * 1 := by
        exact mul_lt_mul_of_pos_left (Int.fract_lt_one _) hm
    _ = m := mul_one m

theorem pyMod_self_of_lt (a m : ℚ) (h0 : 0 ≤ a) (h1 : a < m) : pyMod a m = a := by
  have hm : 0 < m := lt_of_le_of_lt h0 h1
  have : ⌊a / m⌋ = 0 := by
    rw [Int.floor_eq_zero_iff]
    constructor
    · exact div_nonneg h0 hm.le
    · rw [div_lt_one hm]; exact h1
  simp [pyMod, this]

theorem normalize_angles_range (l : List ℚ) :
    ∀ b ∈ normalize_angles l, -180 ≤ b ∧ b < 180 := by
  intro b hb
  rcases List.mem_map.mp hb with ⟨a, _, rfl⟩
  constructor
  · have := pyMod_nonneg (a + 180) 360 (by norm_num)
    linarith
  · have := pyMod_lt (a + 180) 360 (by norm_num)
    linarith

theorem normalize_angles_fixed (l : List ℚ) (h : ∀ a ∈ l, -180 ≤ a ∧ a < 180) :
    normalize_angles l = l := by
  unfold normalize_angles
  have : ∀ a ∈ l, pyMod (a + 180) 360 - 180 = a := by
    intro a ha
    rcases h a ha with ⟨h1, h2⟩
    rw [pyMod_self_of_lt (a + 180) 360 (by linarith) (by linarith)]
    ring
  rw [List.map_congr_left this]
  exact List.map_id l

/-- C3 counterexample: the claim says every output of `normalize_angles` lies in
the half-open interval (−180, 180] and that inputs already in that interval are
returned unchanged.  At the concrete input 180 — which lies in (−180, 180] —
the code returns −180, which does not lie in (−180, 180] and differs from the
input. -/
theorem normalize_angles_boundary_cex :
    normalize_angles [180] = [-180] ∧ ¬ (-180 < (-180 : ℚ)) ∧
      ((-180 : ℚ) < 180 ∧ (180 : ℚ) ≤ 180) := by
  refine ⟨?_, by norm_num, by norm_num⟩
  unfold normalize_angles pyMod
  norm_num

/-- C3 (amended): `normalize_angles` maps every element `a` to
`((a + 180) mod 360) − 180` (Python float `%`), preserving order and length;
every output lies in the half-open interval [−180, 180); concretely
`normalize_angles [190] = [-170]` and `normalize_angles [-190] = [170]`; and any
input whose elements all lie in [−180, 180) is returned unchanged. -/
theorem normalize_angles_spec :
    (∀ l : List ℚ, normalize_angles l = l.map (fun a => pyMod (a + 180) 360 - 180) ∧
      (normalize_angles l).length = l.length) ∧
    (∀ l : List ℚ, ∀ b ∈ normalize_angles l, -180 ≤ b ∧ b < 180) ∧
    normalize_angles [190] = [-170] ∧
    normalize_angles [-190] = [170] ∧
    (∀ l : List ℚ, (∀ a ∈ l, -180 ≤ a ∧ a < 180) → normalize_angles l = l) := by
  refine ⟨fun l => ⟨rfl, List.length_map _ _⟩, normalize_angles_range, ?_, ?_,
    normalize_angles_fixed⟩
  · unfold normalize_angles pyMod
    norm_num
  · unfold normalize_angles pyMod
    norm_num

/-- C3 witness: the amended theorem applied at the concrete in-range input
[170] and at [190]. -/
theorem normalize_angles_spec_witness :
    normalize_angles [170] = [170] ∧ normalize_angles [190] = [-170] :=
  ⟨normalize_angles_spec.2.2.2.2 [170]
      (by intro a ha; rw [List.mem_singleton] at ha; subst ha; norm_num),
    normalize_angles_spec.2.2.1⟩

/-- Embeds `math.radians`: degrees to radians. -/
noncomputable def radians (deg : ℝ) : ℝ := deg * (Real.pi / 180)

/-- The elementary rotation about X built inside `utils.rpy_to_matrix`
(`alpha = radians(roll)`). -/
noncomputable def Rx (a : ℝ) : Matrix (Fin 3) (Fin 3) ℝ :=
  !![1, 0, 0; 0, Real.cos a, -Real.sin a; 0, Real.sin a, Real.cos a]

/-- The elementary rotation about Y built inside `utils.rpy_to_matrix`
(`beta = radians(pitch)`). -/
noncomputable def Ry (b : ℝ) : Matrix (Fin 3) (Fin 3) ℝ :=
  !![Real.cos b, 0, Real.sin b; 0, 1, 0; -Real.sin b, 0, Real.cos b]

/-- The elementary rotation about Z built inside `utils.rpy_to_matrix`
(`gamma = radians(yaw)`). -/
noncomputable def Rz (g : ℝ) : Matrix (Fin 3) (Fin 3) ℝ :=
  !![Real.cos g, -Real.sin g, 0; Real.sin g, Real.cos g, 0; 0, 0, 1]

/-- Embeds `utils.rpy_to_matrix`: degrees in, returns `Rz @ Ry @ Rx`. -/
noncomputable def rpy_to_matrix (roll pitch yaw : ℝ) : Matrix (Fin 3) (Fin 3) ℝ :=
  Rz (radians yaw) * Ry (radians pitch) * Rx (radians roll)

theorem Rx_orthogonal (a : ℝ) : (Rx a)ᵀ * Rx a = 1 := by
  ext i j
  fin_cases i <;> fin_cases j <;>
    simp [Rx, Matrix.mul_apply, Fin.sum_univ_three, Matrix.one_apply,
      Matrix.transpose_apply, Matrix.vecHead, Matrix.vecTail] <;>
    nlinarith [Real.sin_sq_add_cos_sq a]

theorem Ry_orthogonal (b : ℝ) : (Ry b)ᵀ * Ry b = 1 := by
  ext i j
  fin_cases i <;> fin_cases j <;>
    simp [Ry, Matrix.mul_apply, Fin.sum_univ_three, Matrix.one_apply,
      Matrix.transpose_apply, Matrix.vecHead, Matrix.vecTail] <;>
    nlinarith [Real.sin_sq_add_cos_sq b]

theorem Rz_orthogonal (g : ℝ) : (Rz g)ᵀ * Rz g = 1 := by
  ext i j
  fin_cases i <;> fin_cases j <;>
    simp [Rz, Matrix.mul_apply, Fin.sum_univ_three, Matrix.one_apply,
      Matrix.transpose_apply, Matrix.vecHead, Matrix.vecTail] <;>
    nlinarith [Real.sin_sq_add_cos_sq g]

theorem Rx_zero : Rx 0 = 1 := by
  ext i j
  fin_cases i <;> fin_cases j <;>
    simp [Rx, Matrix.one_apply, Matrix.vecHead, Matrix.vecTail]

theorem Ry_zero : Ry 0 = 1 := by
  ext i j
  fin_cases i <;> fin_cases j <;>
    simp [Ry, Matrix.one_apply, Matrix.vecHead, Matrix.vecTail]

theorem Rz_zero : Rz 0 = 1 := by
  ext i j
  fin_cases i <;> fin_cases j <;>
    simp [Rz, Matrix.one_apply, Matrix.vecHead, Matrix.vecTail]

/-- C8: `rpy_to_matrix` is the composite `Rz(yaw)·Ry(pitch)·Rx(roll)` of the
elementary rotations (degrees converted to radians); at (0,0,0) it is the 3×3
identity; and for every roll/pitch/yaw its transpose times itself is the
identity (orthonormal columns), exactly over the reals. -/
theorem rpy_to_matrix_spec :
    rpy_to_matrix 0 0 0 = 1 ∧
    (∀ roll pitch yaw : ℝ,
      rpy_to_matrix roll pitch yaw =
        Rz (radians yaw) * Ry (radians pitch) * Rx (radians roll)) ∧
    (∀ roll pitch yaw : ℝ,
      (rpy_to_matrix roll pitch yaw)ᵀ * rpy_to_matrix roll pitch yaw = 1) := by
  refine ⟨?_, fun _ _ _ => rfl, ?_⟩
  · unfold rpy_to_matrix radians
    rw [zero_mul, Rx_zero, Ry_zero, Rz_zero, mul_one, mul_one]
  · intro roll pitch yaw
    unfold rpy_to_matrix
    rw [Matrix.transpose_mul, Matrix.transpose_mul]
    simp only [mul_assoc]
    rw [← mul_assoc ((Rz (radians yaw))ᵀ) (Rz (radians yaw)), Rz_orthogonal,
      one_mul, ← mul_assoc ((Ry (radians pitch))ᵀ) (Ry (radians pitch)),
      Ry_orthogonal, one_mul, Rx_orthogonal]

/-! ## Configuration constants

`config.py` as present in source form stops at the window settings; the
constants below are referenced by `gui_qt.py` and by every example script but
are not defined in the available `config.py`. -/

/-- Modelled from the spec: `config.JOINT_LIMITS`, the per-joint (low, high)
degree pairs, absent from the `config.py` in source form; values from spec §3
(J1 ±360, J2 ±150, J3 −3.5..300, J4 ±360, J5 ±124, J6 ±360), which
`lite6_reference.JOINT_LIMITS_DEG` reproduces verbatim. -/
def JOINT_LIMITS : List (ℚ × ℚ) :=
  [(-360, 360), (-150, 150), (Rat.divInt (-7) 2, 300), (-360, 360), (-124, 124), (-360, 360)]

/-- The J3 lower bound −3.5 written as `Rat.divInt (-7) 2` above (a
kernel-reducible normal form) is the rational −7/2. -/
theorem J3_low_eq : Rat.divInt (-7) 2 = (-7/2 : ℚ) := by
  rw [Rat.divInt_eq_div]; norm_num

/-- Modelled from the spec: `config.JOINT_SPEED_LIMIT_DEG_S`, absent from the
`config.py` in source form; spec §4.2 gives the joint speed ceiling 180 deg/s. -/
def JOINT_SPEED_LIMIT_DEG_S : ℚ := 180

/-- Modelled from the spec: `config.JOINT_ACC_LIMIT_DEG_S2`, absent from the
`config.py` in source form; spec §4.2 gives the joint acceleration ceiling
1145 deg/s². -/
def JOINT_ACC_LIMIT_DEG_S2 : ℚ := 1145

/-- Modelled from the spec: `config.TCP_SPEED_LIMIT_MM_S`, absent from the
`config.py` in source form; spec §4.2 gives the TCP speed ceiling 500 mm/s. -/
def TCP_SPEED_LIMIT_MM_S : ℚ := 500

/-- Modelled from the spec: `config.TCP_ACC_LIMIT_MM_S2`, absent from the
`config.py` in source form; spec §4.2 gives the TCP acceleration ceiling
50000 mm/s². -/
def TCP_ACC_LIMIT_MM_S2 : ℚ := 50000

/-! ## `gui_qt._preflight_script`

The preflight check parses the candidate script and scans its syntax tree for
calls to `set_servo_angle` / `set_position`.  We embed the fragment of the
Python AST the check inspects: an argument expression is either a numeric
literal, a list/tuple display of expressions, or anything else (a run-time
computed value).  A parsed script is the list of call nodes the
`ast.NodeVisitor` encounters; a file that fails to read or parse is `none`. -/

/-- The fragment of the Python expression AST inspected by
`_preflight_script`.  `ast.List` and `ast.Tuple` displays are both `listLit`
(the code treats them identically); `dynamic` stands for every other
expression (names, calls, arithmetic, …). -/
inductive PyExpr where
  | num (v : ℚ)
  | listLit (elts : List PyExpr)
  | dynamic

/-- A call node: function name (attribute or bare name), positional
arguments, keyword arguments. -/
structure PyCall where
  funcName : String
  args : List PyExpr
  kwargs : List (String × PyExpr)

/-- Embeds `eval_num`: a numeric constant's value, else `None`. -/
def eval_num : Option PyExpr → Option ℚ
  | some (PyExpr.num v) => some v
  | _ => none

/-- Embeds `eval_list`: the values of a list/tuple display all of whose elements are
numeric constants, else `None`. -/
def eval_list : Option PyExpr → Option (List ℚ)
  | some (PyExpr.listLit elts) => elts.mapM (fun e => eval_num (some e))
  | _ => none

/-- The warnings `_preflight_script` collects, with the data interpolated
into each human-readable message. -/
inductive Warning where
  | jointLimit (joint : ℕ) (val lo hi : ℚ)
  | jointSpeed (val limit : ℚ)
  | jointAcc (val limit : ℚ)
  | tcpSpeed (val limit : ℚ)
  | tcpAcc (val limit : ℚ)
  deriving DecidableEq

/-- Embeds `kwargs.get(key)`: keyword-argument lookup (`{kw.arg: kw.value}` is a dict
with unique keys, so first match suffices). -/
def kwargGet : List (String × PyExpr) → String → Option PyExpr
  | [], _ => none
  | (k, v) :: rest, key => if k = key then some v else kwargGet rest key

/-- Embeds `kwargs.get(key) or fallback`: a present keyword argument is an AST node
and hence truthy, so the keyword wins whenever it exists. -/
def kwargOr (kwargs : List (String × PyExpr)) (key : String) (fallback : Option PyExpr) :
    Option PyExpr :=
  match kwargGet kwargs key with
  | some e => some e
  | none => fallback

/-- The per-joint limit scan: `for idx, val in enumerate(angles):
if idx < len(joint_limits): ...` with a warning when `val < lo or val > hi`. -/
def jointLimitWarnings (angles : List ℚ) : List Warning :=
  (angles.enum).filterMap fun p =>
    match JOINT_LIMITS.get? p.1 with
    | some (lo, hi) =>
        if p.2 < lo ∨ p.2 > hi then some (Warning.jointLimit (p.1 + 1) p.2 lo hi)
        else none
    | none => none

/-- Embeds `check_call` for `name == "set_servo_angle"`.  Note the Python truthiness
tests: `if angles:` skips empty literal lists, `if speed and …` skips a zero
speed, and the configured ceilings are themselves truthy. -/
def checkServoCall (c : PyCall) : List Warning :=
  let anglesNode := kwargOr c.kwargs "angle" (c.args.get? 0)
  let angles := eval_list anglesNode
  let speed := eval_num (kwargOr c.kwargs "speed" (c.args.get? 1))
  let acc := eval_num (kwargOr c.kwargs "mvacc" (c.args.get? 2))
  (match angles with
   | some l => if l ≠ [] then jointLimitWarnings l else []
   | none => []) ++
  (match speed with
   | some s =>
       if s ≠ 0 ∧ JOINT_SPEED_LIMIT_DEG_S ≠ 0 ∧ s > JOINT_SPEED_LIMIT_DEG_S then
         [Warning.jointSpeed s JOINT_SPEED_LIMIT_DEG_S]
       else []
   | none => []) ++
  (match acc with
   | some a =>
       if a ≠ 0 ∧ JOINT_ACC_LIMIT_DEG_S2 ≠ 0 ∧ a > JOINT_ACC_LIMIT_DEG_S2 then
         [Warning.jointAcc a JOINT_ACC_LIMIT_DEG_S2]
       else []
   | none => [])

/-- Embeds `check_call` for `name == "set_position"`. -/
def checkPositionCall (c : PyCall) : List Warning :=
  let speed := eval_num (kwargOr c.kwargs "speed" (c.args.get? 6))
  let acc := eval_num (kwargOr c.kwargs "acc" none)
  (match speed with
   | some s =>
       if s ≠ 0 ∧ TCP_SPEED_LIMIT_MM_S ≠ 0 ∧ s > TCP_SPEED_LIMIT_MM_S then
         [Warning.tcpSpeed s TCP_SPEED_LIMIT_MM_S]
       else []
   | none => []) ++
  (match acc with
   | some a =>
       if a ≠ 0 ∧ TCP_ACC_LIMIT_MM_S2 ≠ 0 ∧ a > TCP_ACC_LIMIT_MM_S2 then
         [Warning.tcpAcc a TCP_ACC_LIMIT_MM_S2]
       else []
   | none => [])

/-- Embeds `Checker.visit_Call`: only calls named `set_servo_angle` or `set_position`
are checked (both `if` branches of `check_call` run in sequence). -/
def checkCall (c : PyCall) : List Warning :=
  (if c.funcName = "set_servo_angle" then checkServoCall c else []) ++
  (if c.funcName = "set_position" then checkPositionCall c else [])

/-- Outcome of `_preflight_script`: the collected warnings, plus whether the
"[SAFEGUARD] Preflight skipped" log line was emitted. -/
structure PreflightResult where
  warnings : List Warning
  skippedLogged : Bool
  deriving DecidableEq

/-- Embeds `_preflight_script`: on a file that fails to read or parse
(`parsed = none`) the exception is caught, the skip is logged and the (still
empty) warning list is returned; otherwise every call node in the tree is
checked and the warnings concatenated in visit order. -/
def preflightScript : Option (List PyCall) → PreflightResult
  | none => ⟨[], true⟩
  | some calls => ⟨calls.flatMap checkCall, false⟩

/-- The method `_run_current_script` shows the warning modal exactly when the preflight
warning list is non-empty. -/
def preflightModalShown (parsed : Option (List PyCall)) : Bool :=
  !(preflightScript parsed).warnings.isEmpty

/-- The literal call `set_servo_angle([0, 0, 400, 0, 0, 0], speed=10, mvacc=50)`
from the spec's preflight example. -/
def unsafeLiteralCall : PyCall :=
  { funcName := "set_servo_angle"
    args := [PyExpr.listLit
      [PyExpr.num 0, PyExpr.num 0, PyExpr.num 400, PyExpr.num 0, PyExpr.num 0, PyExpr.num 0]]
    kwargs := [("speed", PyExpr.num 10), ("mvacc", PyExpr.num 50)] }

/-- The same call with the angle list replaced by an arbitrary expression
(computed at run time). -/
def dynamicAnglesCall (e : PyExpr) : PyCall :=
  { funcName := "set_servo_angle"
    args := [e]
    kwargs := [("speed", PyExpr.num 10), ("mvacc", PyExpr.num 50)] }

/-- C1: on any parsed script containing the literal call
`set_servo_angle([0,0,400,0,0,0], speed=10, mvacc=50)`, preflight reports a
warning naming Joint 3 and the value 400 (400 exceeds the J3 limit pair
(−3.5, 300)); and on the same call whose angle-list argument is not a literal
constant, preflight reports no warning at all. -/
theorem preflight_literal_vs_dynamic :
    (∀ calls : List PyCall, unsafeLiteralCall ∈ calls →
      Warning.jointLimit 3 400 (-7/2) 300 ∈ (preflightScript (some calls)).warnings) ∧
    (∀ e : PyExpr, eval_list (some e) = none →
      (preflightScript (some [dynamicAnglesCall e])).warnings = []) := by
  constructor
  · intro calls hmem
    show Warning.jointLimit 3 400 (-7/2) 300 ∈ calls.flatMap checkCall
    refine List.mem_flatMap.mpr ⟨unsafeLiteralCall, hmem, ?_⟩
    have h : checkCall unsafeLiteralCall =
        [Warning.jointLimit 3 400 (Rat.divInt (-7) 2) 300] := rfl
    rw [h, J3_low_eq]
    exact List.mem_singleton.mpr rfl
  · intro e he
    norm_num [preflightScript, List.flatMap_cons, List.flatMap_nil,
      checkCall, checkServoCall, checkPositionCall, dynamicAnglesCall, kwargOr,
      kwargGet, eval_num, he, JOINT_SPEED_LIMIT_DEG_S, JOINT_ACC_LIMIT_DEG_S2,
      TCP_SPEED_LIMIT_MM_S, TCP_ACC_LIMIT_MM_S2,
      show ("speed" = "angle") = False from eq_false (by decide),
      show ("mvacc" = "angle") = False from eq_false (by decide),
      show ("speed" = "mvacc") = False from eq_false (by decide),
      show ("speed" = "acc") = False from eq_false (by decide),
      show ("mvacc" = "acc") = False from eq_false (by decide),
      show ("set_servo_angle" = "set_position") = False from eq_false (by decide)]

/-- C1 witness: the theorem applied to the one-call script holding the literal
call, and to the one-call script whose angle list is a run-time expression. -/
theorem preflight_literal_vs_dynamic_witness :
    Warning.jointLimit 3 400 (-7/2) 300 ∈
        (preflightScript (some [unsafeLiteralCall])).warnings ∧
    (preflightScript (some [dynamicAnglesCall PyExpr.dynamic])).warnings = [] :=
  ⟨preflight_literal_vs_dynamic.1 [unsafeLiteralCall] (List.mem_singleton.mpr rfl),
    preflight_literal_vs_dynamic.2 PyExpr.dynamic rfl⟩

/-- C9: preflight fails open — a file that cannot be read or parsed yields an
empty warning list with the skip logged, and hence no warning modal is shown
before the run proceeds. -/
theorem preflight_fails_open :
    (preflightScript none).warnings = [] ∧
    (preflightScript none).skippedLogged = true ∧
    preflightModalShown none = false :=
  ⟨rfl, rfl, rfl⟩

/-! ## `config.py` — vendor-SDK probe

`config.py` wraps `from xarm.wrapper import XArmAPI` in
`try: … except ImportError: …`.  Executing that import has three possible
outcomes: it succeeds; it raises `ImportError` (the SDK is absent — the caught
class); or it raises some other exception (an installed SDK whose own module
code fails while executing).  Only `ImportError` is caught, so the third
outcome propagates out of `config.py`. -/

/-- Outcome of executing `from xarm.wrapper import XArmAPI`: the vendor SDK
loads, the import raises `ImportError` (absent module), or the import raises
an exception of any other class. -/
inductive SdkImportOutcome where
  | available
  | importError
  | otherError
  deriving DecidableEq

/-- The observable result of initialising `config.py`: the `HAS_REAL_SDK`
flag and the `[SYSTEM]` line printed. -/
structure ConfigInit where
  hasRealSdk : Bool
  logMsg : String
  deriving DecidableEq

/-- What the `try/except ImportError` block leaves of the module
initialisation: it completes with a flag and a log line, or the exception
escapes the `except ImportError` clause and propagates past the module
boundary. -/
inductive ProbeResult where
  | initialized (c : ConfigInit)
  | raised
  deriving DecidableEq

/-- Embeds the `try/except ImportError` block of `config.py` over the three
outcomes of the import: success sets `HAS_REAL_SDK = True` and logs the confirmation;
an `ImportError` is caught, sets it `False` and logs simulation-only
operation; any other exception matches no `except` clause and propagates. -/
def configSdkProbe : SdkImportOutcome → ProbeResult
  | SdkImportOutcome.available =>
      ProbeResult.initialized
        ⟨true, "[SYSTEM] xarm-python-sdk found! Working in simulation and robot mode."⟩
  | SdkImportOutcome.importError =>
      ProbeResult.initialized
        ⟨false, "[SYSTEM] xarm-python-sdk not found. Working in simulation-mode only."⟩
  | SdkImportOutcome.otherError => ProbeResult.raised

/-- C7 counterexample: the claim says the probe never raises past the module
boundary for any outcome of importing `xarm.wrapper.XArmAPI`, but `config.py`
catches only `ImportError`: at the explicit outcome where the import raises a
non-`ImportError` exception, the exception propagates and module
initialisation does not complete — unlike the caught `ImportError` outcome. -/
theorem configSdkProbe_uncaught_cex :
    configSdkProbe SdkImportOutcome.otherError = ProbeResult.raised ∧
    configSdkProbe SdkImportOutcome.importError ≠ ProbeResult.raised ∧
    configSdkProbe SdkImportOutcome.available ≠ ProbeResult.raised := by
  refine ⟨rfl, ?_, ?_⟩ <;> decide

/-- C7 (amended): when the import of `xarm.wrapper.XArmAPI` succeeds, `config`
initialisation completes with `HAS_REAL_SDK = True` and the confirmation log;
when the import fails with `ImportError` (the vendor SDK is absent — the
normal no-SDK mode), it completes with `HAS_REAL_SDK = False` and the
simulation-only log, so importing `config` completes normally whether or not
the vendor SDK is present; an exception of any other class raised while the
SDK is being imported is not caught and propagates past the module boundary. -/
theorem configSdkProbe_spec :
    configSdkProbe SdkImportOutcome.available =
      ProbeResult.initialized
        ⟨true, "[SYSTEM] xarm-python-sdk found! Working in simulation and robot mode."⟩ ∧
    configSdkProbe SdkImportOutcome.importError =
      ProbeResult.initialized
        ⟨false, "[SYSTEM] xarm-python-sdk not found. Working in simulation-mode only."⟩ ∧
    (∀ o : SdkImportOutcome, o ≠ SdkImportOutcome.otherError →
      ∃ c : ConfigInit, configSdkProbe o = ProbeResult.initialized c) ∧
    (∀ o : SdkImportOutcome, ∀ c : ConfigInit,
      configSdkProbe o = ProbeResult.initialized c →
      (c.hasRealSdk = true ↔ o = SdkImportOutcome.available)) ∧
    configSdkProbe SdkImportOutcome.otherError = ProbeResult.raised := by
  refine ⟨rfl, rfl, ?_, ?_, rfl⟩
  · intro o ho
    cases o with
    | available => exact ⟨_, rfl⟩
    | importError => exact ⟨_, rfl⟩
    | otherError => exact absurd rfl ho
  · intro o c hc
    cases o <;> simp [configSdkProbe] at hc <;> simp [← hc]

/-- C7 witness: the amended theorem applied at the two non-raising outcomes,
discharging their hypotheses. -/
theorem configSdkProbe_spec_witness :
    (∃ c : ConfigInit,
      configSdkProbe SdkImportOutcome.importError = ProbeResult.initialized c) ∧
    (∃ c : ConfigInit,
      configSdkProbe SdkImportOutcome.available = ProbeResult.initialized c) :=
  ⟨configSdkProbe_spec.2.2.1 SdkImportOutcome.importError (by decide),
    configSdkProbe_spec.2.2.1 SdkImportOutcome.available (by decide)⟩

/-! ## `gui_qt` — collision handling

State touched by `_update_3d_loop` / `_handle_collision` / `_home`, and the
externally visible UI actions those methods perform.  The modal's button
choice and the per-frame render result are inputs. -/

/-- Embeds `config.JOINT_COUNT` (present in `config.py`). -/
def JOINT_COUNT : ℕ := 6

/-- The Control Panel state read and written by the collision flow. -/
structure GuiState where
  collisionPopupShown : Bool
  stopFlag : Bool
  paused : Bool
  runningScript : Bool
  wasColliding : Bool
  collisionAlertChecked : Bool
  plotterAlive : Bool
  realArm : Bool
  jointsDeg : List ℚ
  deriving DecidableEq

/-- Externally visible actions of the collision flow, in program order. -/
inductive UiAction where
  | toggleControls (running : Bool)
  | logCollisionAlert
  | openCollisionModal
  | saveSnapshot
  | homeRealArmCommand
  | recolorRestored
  deriving DecidableEq

/-- The operator's choice on the collision modal (`Resume`, `Reset to Home`,
`Save Snapshot`). -/
inductive CollisionChoice where
  | resume
  | reset
  | snapshot
  deriving DecidableEq

/-- Embeds `_home`: clears the collision-popup flag, zeroes the joint vector (and the
jogging widgets), and, only with a real arm attached, issues a low-speed
homing command. -/
def homePanel (s : GuiState) : GuiState × List UiAction :=
  let s1 := { s with collisionPopupShown := false,
                     jointsDeg := List.replicate JOINT_COUNT 0 }
  (s1, if s.realArm then [UiAction.homeRealArmCommand] else [])

/-- Embeds `_handle_collision`: with the popup already shown, re-assert the halt
flags and return; otherwise halt, log, open the modal and dispatch on the
operator's choice (snapshot keeps the halt flags, reset homes, resume and
reset clear the flags). -/
def handleCollision (s : GuiState) (choice : CollisionChoice) : GuiState × List UiAction :=
  if s.collisionPopupShown then
    ({ s with stopFlag := true, paused := true, runningScript := false },
     [UiAction.toggleControls false])
  else
    let s1 := { s with collisionPopupShown := true, stopFlag := true, paused := true,
                       runningScript := false }
    let acts := [UiAction.toggleControls false, UiAction.logCollisionAlert,
                 UiAction.openCollisionModal]
    match choice with
    | CollisionChoice.snapshot =>
        ({ s1 with collisionPopupShown := false }, acts ++ [UiAction.saveSnapshot])
    | CollisionChoice.reset =>
        let (s2, hacts) := homePanel s1
        ({ s2 with stopFlag := false, paused := false, collisionPopupShown := false },
         acts ++ hacts)
    | CollisionChoice.resume =>
        ({ s1 with stopFlag := false, paused := false, collisionPopupShown := false }, acts)

/-- Embeds `_update_3d_loop`: nothing happens without a live plotter; a raised render
exception (`render = none`) is swallowed; a collision frame records
`was_colliding` and enters `_handle_collision` only when the Collision Alerts
checkbox is checked; a clear frame after a collision restores the colors. -/
def update3dLoop (s : GuiState) (render : Option Bool) (choice : CollisionChoice) :
    GuiState × List UiAction :=
  if s.plotterAlive = false then (s, [])
  else
    match render with
    | none => (s, [])
    | some true =>
        let s1 := { s with wasColliding := true }
        if s.collisionAlertChecked then handleCollision s1 choice else (s1, [])
    | some false =>
        if s.wasColliding then ({ s with wasColliding := false }, [UiAction.recolorRestored])
        else (s, [])

/-- The `Collision Alerts` checkbox is constructed checked
(`setChecked(True)`). -/
def collisionAlertDefaultChecked : Bool := true

/-- C4: a collision report arriving while the collision popup flag is already
set re-asserts `stop_flag = paused = true`, clears `running_script`, opens no
second modal, changes nothing else, and in particular — when the state was
already halted — leaves the halt flags at their old values. -/
theorem handleCollision_reentrant (s : GuiState) (choice : CollisionChoice)
    (h : s.collisionPopupShown = true) :
    handleCollision s choice =
      ({ s with stopFlag := true, paused := true, runningScript := false },
       [UiAction.toggleControls false]) ∧
    UiAction.openCollisionModal ∉ (handleCollision s choice).2 ∧
    (handleCollision s choice).1.collisionPopupShown = s.collisionPopupShown ∧
    (s.stopFlag = true → s.paused = true →
      (handleCollision s choice).1.stopFlag = s.stopFlag ∧
      (handleCollision s choice).1.paused = s.paused) := by
  refine ⟨by simp [handleCollision, h], ?_, ?_, ?_⟩
  · simp [handleCollision, h]
  · simp [handleCollision, h]
  · intro h1 h2
    simp [handleCollision, h, h1, h2]

/-- C4 witness: the theorem at a concrete halted state with the popup flag
set. -/
theorem handleCollision_reentrant_witness :
    handleCollision
        { collisionPopupShown := true, stopFlag := true, paused := true,
          runningScript := true, wasColliding := true, collisionAlertChecked := true,
          plotterAlive := true, realArm := false, jointsDeg := [0, 0, 0, 0, 0, 0] }
        CollisionChoice.resume =
      ({ collisionPopupShown := true, stopFlag := true, paused := true,
         runningScript := false, wasColliding := true, collisionAlertChecked := true,
         plotterAlive := true, realArm := false, jointsDeg := [0, 0, 0, 0, 0, 0] },
       [UiAction.toggleControls false]) :=
  (handleCollision_reentrant _ CollisionChoice.resume rfl).1

/-- C10: with the Collision Alerts checkbox unchecked, a positive collision
report from `render_frame` leaves `stop_flag` and `paused` untouched and opens
no collision modal; with a live plotter, only the `was_colliding` marker is
recorded.  The checkbox's constructed default is checked. -/
theorem collision_alert_gate (s : GuiState) (choice : CollisionChoice)
    (h : s.collisionAlertChecked = false) :
    (s.plotterAlive = true →
      update3dLoop s (some true) choice = ({ s with wasColliding := true }, [])) ∧
    (update3dLoop s (some true) choice).1.stopFlag = s.stopFlag ∧
    (update3dLoop s (some true) choice).1.paused = s.paused ∧
    UiAction.openCollisionModal ∉ (update3dLoop s (some true) choice).2 ∧
    collisionAlertDefaultChecked = true := by
  by_cases hp : s.plotterAlive = true
  · refine ⟨fun _ => by simp [update3dLoop, hp, h], ?_, ?_, ?_, rfl⟩ <;>
      simp [update3dLoop, hp, h]
  · have hp' : s.plotterAlive = false := by
      cases hpa : s.plotterAlive
      · rfl
      · exact absurd hpa hp
    refine ⟨fun hc => absurd hc hp, ?_, ?_, ?_, rfl⟩ <;>
      simp [update3dLoop, hp']

/-- C10 witness: the theorem at a concrete unchecked-alerts state with a live
plotter. -/
theorem collision_alert_gate_witness :
    update3dLoop
        { collisionPopupShown := false, stopFlag := false, paused := false,
          runningScript := true, wasColliding := false, collisionAlertChecked := false,
          plotterAlive := true, realArm := false, jointsDeg := [0, 0, 0, 0, 0, 0] }
        (some true) CollisionChoice.resume =
      ({ collisionPopupShown := false, stopFlag := false, paused := false,
         runningScript := true, wasColliding := true, collisionAlertChecked := false,
         plotterAlive := true, realArm := false, jointsDeg := [0, 0, 0, 0, 0, 0] }, []) :=
  (collision_alert_gate _ CollisionChoice.resume rfl).1 rfl

/-! ## `gui_qt._add_to_history` — script history persistence -/

/-- Python's `needle in hay` substring test on strings. -/
def strIn (needle hay : String) : Bool :=
  hay.data.tails.any (fun t => needle.data.isPrefixOf t)

/-- Modelled from the spec: `config.EXAMPLES_DIR`, the bundled-examples
directory path, absent from the `config.py` in source form (spec §4.1 lists an
examples directory among the file-path constants). -/
def EXAMPLES_DIR : String := "examples"

/-- Embeds `config.EXAMPLES_DIR in p`: the provenance test used by
`_add_to_history` (an entry is an example when its path contains the examples
directory). -/
def isExamplePath (p : String) : Bool := strIn EXAMPLES_DIR p

/-- The in-memory update of `_add_to_history`: remove the path if present
(Python's guarded `remove` drops the first occurrence; removal of an absent
path is the identity), then insert at position 0. -/
def addToHistory (path : String) (hist : List String) : List String :=
  path :: hist.erase path

/-- Embeds `user_scripts = [p for p in self.script_history if config.EXAMPLES_DIR not in p]`. -/
def userScripts (hist : List String) : List String :=
  hist.filter (fun p => !(isExamplePath p))

/-- The lines written to `config.HISTORY_FILE`: `user_scripts[:10]`. -/
def persistedHistory (hist : List String) : List String :=
  (userScripts hist).take 10

/-- C5: from a history whose user (non-example) entries are 10 distinct paths,
adding an 11th distinct non-example path persists exactly 10 paths, the new
path first, with the oldest previous user path evicted; example paths are
never written to the persisted file. -/
theorem addToHistory_cap (hist : List String) (p : String)
    (hp : isExamplePath p = false) (hmem : p ∉ hist)
    (hlen : (userScripts hist).length = 10) (hnd : (userScripts hist).Nodup) :
    persistedHistory (addToHistory p hist) = p :: (userScripts hist).take 9 ∧
    (persistedHistory (addToHistory p hist)).length = 10 ∧
    (persistedHistory (addToHistory p hist)).head? = some p ∧
    (∀ old, (userScripts hist).getLast? = some old →
      old ∉ persistedHistory (addToHistory p hist)) ∧
    (∀ (h : List String) (q : String), isExamplePath q = true →
      q ∉ persistedHistory h) := by
  have herase : hist.erase p = hist := List.erase_of_not_mem hmem
  have hfilter : userScripts (addToHistory p hist) = p :: userScripts hist := by
    unfold addToHistory userScripts
    rw [herase, List.filter_cons]
    simp [hp]
  have hmain : persistedHistory (addToHistory p hist) = p :: (userScripts hist).take 9 := by
    unfold persistedHistory
    rw [hfilter, List.take_succ_cons]
  refine ⟨hmain, ?_, ?_, ?_, ?_⟩
  · rw [hmain]
    simp [List.length_take, hlen]
  · rw [hmain]; rfl
  · intro old hold
    rw [hmain]
    intro hin
    rcases List.mem_cons.mp hin with hq | hq
    · subst hq
      have : old ∈ hist := by
        have : old ∈ userScripts hist := List.mem_of_mem_getLast? hold
        exact List.mem_of_mem_filter this
      exact hmem this
    · -- `old` is the last (10th) user entry; by distinctness it is not among
      -- the first 9 kept entries.
      have h9 : (userScripts hist)[9]? = some old := by
        rw [List.getLast?_eq_getElem?] at hold
        rw [hlen] at hold
        exact hold
      have hdisj : List.Disjoint ((userScripts hist).take 9) ((userScripts hist).drop 9) :=
        List.disjoint_take_drop hnd (le_refl 9)
      have hdropmem : old ∈ (userScripts hist).drop 9 := by
        have h0 : ((userScripts hist).drop 9)[0]? = some old := by
          rw [List.getElem?_drop]
          exact h9
        exact List.getElem?_mem h0
      exact hdisj hq hdropmem
  · intro h q hq hin
    have : q ∈ userScripts h := List.mem_of_mem_take hin
    have := List.of_mem_filter this
    simp [hq] at this

/-- C5 witness: the theorem at a concrete 10-entry user history plus an 11th
distinct user path. -/
theorem addToHistory_cap_witness :
    persistedHistory (addToHistory "new"
        ["u0", "u1", "u2", "u3", "u4", "u5", "u6", "u7", "u8", "u9"]) =
      "new" :: (userScripts
        ["u0", "u1", "u2", "u3", "u4", "u5", "u6", "u7", "u8", "u9"]).take 9 :=
  (addToHistory_cap ["u0", "u1", "u2", "u3", "u4", "u5", "u6", "u7", "u8", "u9"] "new"
    (by decide) (by decide) (by decide) (by decide)).1

/-! ## The bundled motion scripts (`src/examples/`)

Each script's `main` is embedded as a function of its external inputs: the
sequence of `time.time() - t0` samples the loop observes (rationals, so the
control-flow comparisons are exact), the script's random phase offsets where
it draws any, and an optional injected exception (iteration index and
exception class) standing for "an exception is raised at that point of the
per-tick loop".  Joint targets involve `math.sin`, modelled by `Real.sin`, so
commands carry real-valued angle lists.  A run that exhausts the time samples
without leaving the loop is `none` (the Python loop would still be running);
otherwise the trace of issued `set_servo_angle` commands is returned together
with whether an exception propagates out of `main` — and the `try/finally`
shape of every script places the blocking return-to-base command at the end
of the trace in both cases. -/

/-- A `set_servo_angle(angles, speed=…, mvacc=…, wait=…, is_radian=False)`
command as issued by the scripts. -/
structure Cmd where
  angles : List ℝ
  speed : ℝ
  mvacc : ℝ
  wait : Bool

/-- Exception classes relevant to the scripts: `KeyboardInterrupt` (caught by
the two pendulum scripts) and any other exception. -/
inductive ExcKind where
  | generic
  | keyboard
  deriving DecidableEq

/-- How the per-tick loop ended: `break` on duration expiry, an injected
exception, or exhaustion of the observed time samples (the loop would still
be running). -/
inductive LoopExit where
  | finished
  | raised (k : ExcKind)
  | fuelOut

/-- Whether the injected exception fires at iteration `i`. -/
def raisesHere (raiseAt : Option (ℕ × ExcKind)) (i : ℕ) : Option ExcKind :=
  match raiseAt with
  | some (j, k) => if i = j then some k else none
  | none => none

/-- The shared per-tick loop of the six `PRE_DELAY`/`DURATION` scripts:
idle while `elapsed < PRE_DELAY`; with `t = elapsed - PRE_DELAY`, break when
`DURATION and t > DURATION`; otherwise emit the tick's command and sleep. -/
def runTickLoop (body : ℚ → Cmd) (preDelay duration : ℚ)
    (raiseAt : Option (ℕ × ExcKind)) : List ℚ → ℕ → List Cmd × LoopExit
  | [], _ => ([], LoopExit.fuelOut)
  | elapsed :: rest, i =>
      match raisesHere raiseAt i with
      | some k => ([], LoopExit.raised k)
      | none =>
          if elapsed < preDelay then
            runTickLoop body preDelay duration raiseAt rest (i + 1)
          else
            let t := elapsed - preDelay
            if duration ≠ 0 ∧ t > duration then ([], LoopExit.finished)
            else
              let r := runTickLoop body preDelay duration raiseAt rest (i + 1)
              (body t :: r.1, r.2)

/-- The per-tick loop of `pendulum_example`: no pre-delay, break when
`RUN_TIME_SEC and (now - t0) > RUN_TIME_SEC`, command from raw elapsed time. -/
def runPendulumLoop (body : ℚ → Cmd) (runTime : ℚ)
    (raiseAt : Option (ℕ × ExcKind)) : List ℚ → ℕ → List Cmd × LoopExit
  | [], _ => ([], LoopExit.fuelOut)
  | elapsed :: rest, i =>
      match raisesHere raiseAt i with
      | some k => ([], LoopExit.raised k)
      | none =>
          if runTime ≠ 0 ∧ elapsed > runTime then ([], LoopExit.finished)
          else
            let r := runPendulumLoop body runTime raiseAt rest (i + 1)
            (body elapsed :: r.1, r.2)

/-- A completed run of a script's `main`: the issued commands in order, and
whether an exception propagates out of `main`. -/
structure ScriptRun where
  cmds : List Cmd
  excPropagated : Bool

/-- The shared `main` shape: the initial blocking home command, the `try`
block's loop, an optional `except KeyboardInterrupt: pass`, and a `finally`
that issues the blocking home command — hence the final command in both the
finished and the raised case. -/
def scriptMainAux (home : Cmd) (loopResult : List Cmd × LoopExit) (catchKI : Bool) :
    Option ScriptRun :=
  match loopResult.2 with
  | LoopExit.fuelOut => none
  | LoopExit.finished => some ⟨(home :: loopResult.1) ++ [home], false⟩
  | LoopExit.raised k =>
      some ⟨(home :: loopResult.1) ++ [home],
            if catchKI ∧ k = ExcKind.keyboard then false else true⟩

/-- Python `max(lo, min(hi, val))` — each script's local `clamp`. -/
def pyClamp (val lo hi : ℝ) : ℝ := max lo (min hi val)

/-- Embeds `config.JOINT_LIMITS` indexed by joint, for the scripts' clamp loops. -/
def jointLimitsF (i : Fin 6) : ℚ × ℚ := JOINT_LIMITS.get ⟨i.val, i.isLt⟩

/-- The quintic `smootherstep(x) = x*x*x*(x*(6*x-15)+10)`, defined identically
in five of the scripts (and inlined in `pendulum_wave_stick`). -/
def smootherstep (x : ℚ) : ℚ := x * x * x * (x * (6 * x - 15) + 10)

/-- The `envelope(t)` body shared verbatim by `breathing_motion`,
`curiosity_tilt`, `gliding_float`, `nod_greeting` and `swaying_grass`, with
each script's `RAMP`, `DURATION` and edge fraction (0.4, or 0.5 for the nod
script) as parameters:
`edge = min(RAMP, DURATION*frac)`, `ramp_in = min(1, max(0, t/edge))`,
`ramp_out = min(1, max(0, (DURATION-t)/edge))`,
result `smootherstep(min(ramp_in, ramp_out))`, and 1.0 when `DURATION <= 0`. -/
def envelopeAux (ramp duration frac : ℚ) (t : ℚ) : ℚ :=
  if duration ≤ 0 then 1
  else
    let edge := min ramp (duration * frac)
    let rampIn := min 1 (max 0 (t / edge))
    let rampOut := min 1 (max 0 ((duration - t) / edge))
    smootherstep (min rampIn rampOut)

theorem envelopeAux_formula (ramp duration frac : ℚ) (hd : 0 < duration) (t : ℚ) :
    envelopeAux ramp duration frac t =
      smootherstep (min (min 1 (max 0 (t / min ramp (duration * frac))))
        (min 1 (max 0 ((duration - t) / min ramp (duration * frac))))) := by
  unfold envelopeAux
  rw [if_neg (not_le.mpr hd)]

theorem envelopeAux_zero (ramp duration frac : ℚ) (hd : 0 < duration) :
    envelopeAux ramp duration frac 0 = 0 := by
  rw [envelopeAux_formula ramp duration frac hd]
  have h1 : max (0 : ℚ) (0 / min ramp (duration * frac)) = 0 := by
    rw [zero_div]; exact max_self 0
  rw [h1]
  have h2 : min (1 : ℚ) (0 : ℚ) = 0 := by norm_num
  rw [h2]
  have h3 : (0 : ℚ) ≤ min 1 (max 0 ((duration - 0) / min ramp (duration * frac))) := by
    apply le_min (by norm_num)
    exact le_max_left 0 _
  rw [min_eq_left h3]
  unfold smootherstep; ring

theorem envelopeAux_duration (ramp duration frac : ℚ) (hd : 0 < duration) :
    envelopeAux ramp duration frac duration = 0 := by
  rw [envelopeAux_formula ramp duration frac hd]
  have h1 : max (0 : ℚ) ((duration - duration) / min ramp (duration * frac)) = 0 := by
    rw [sub_self, zero_div]; exact max_self 0
  rw [h1]
  have h2 : min (1 : ℚ) (0 : ℚ) = 0 := by norm_num
  rw [h2]
  have h3 : (0 : ℚ) ≤ min 1 (max 0 (duration / min ramp (duration * frac))) := by
    apply le_min (by norm_num)
    exact le_max_left 0 _
  rw [min_eq_right h3]
  unfold smootherstep; ring

theorem envelopeAux_plateau (ramp duration frac : ℚ) (hr : 0 < ramp) (hd : 0 < duration)
    (hf : 0 < frac) (t : ℚ) (h1 : min ramp (duration * frac) ≤ t)
    (h2 : t ≤ duration - min ramp (duration * frac)) :
    envelopeAux ramp duration frac t = 1 := by
  rw [envelopeAux_formula ramp duration frac hd]
  set edge := min ramp (duration * frac) with hedge
  have hepos : 0 < edge := lt_min hr (mul_pos hd hf)
  have hdiv1 : (1 : ℚ) ≤ t / edge := (one_le_div hepos).mpr h1
  have hdiv2 : (1 : ℚ) ≤ (duration - t) / edge := by
    apply (one_le_div hepos).mpr
    linarith
  rw [max_eq_right (le_trans zero_le_one hdiv1),
    max_eq_right (le_trans zero_le_one hdiv2),
    min_eq_left hdiv1, min_eq_left hdiv2, min_self]
  norm_num [smootherstep]

theorem getLast?_append_singleton {α : Type} (l : List α) (a : α) :
    (l ++ [a]).getLast? = some a :=
  List.getLast?_concat l

theorem scriptMainAux_getLast (home : Cmd) (lr : List Cmd × LoopExit) (cKI : Bool)
    (r : ScriptRun) (h : scriptMainAux home lr cKI = some r) :
    r.cmds.getLast? = some home := by
  rcases lr with ⟨cs, ex⟩
  cases ex with
  | fuelOut => exact absurd h (by simp [scriptMainAux])
  | finished =>
      have hr : r = ⟨(home :: cs) ++ [home], false⟩ := by
        have := h
        unfold scriptMainAux at this
        simp only [Option.some.injEq] at this
        exact this.symm
      rw [hr]
      exact getLast?_append_singleton _ _
  | raised k =>
      have hr : r = ⟨(home :: cs) ++ [home],
          if cKI ∧ k = ExcKind.keyboard then false else true⟩ := by
        have := h
        unfold scriptMainAux at this
        simp only [Option.some.injEq] at this
        exact this.symm
      rw [hr]
      exact getLast?_append_singleton _ _

/-! ### `examples/breathing_motion.py` -/

namespace breathingMotion

def BASE_POSE : Fin 6 → ℚ := ![0, 0, 180, 0, 0, 0]

def SPEED : ℚ := 70

def ACC : ℚ := 160

/-- Source: `PRE_DELAY = 1.5`. -/
def PRE_DELAY : ℚ := 3/2

def DURATION : ℚ := 60

def RAMP : ℚ := 8

/-- Source: `AMPLITUDES = [0.0, 3.0, 5.0, 4.0, 1.5, 0.0]`. -/
def AMPLITUDES : Fin 6 → ℚ := ![0, 3, 5, 4, 3/2, 0]

/-- Source: `FREQS = [0.0, 0.11, 0.13, 0.10, 0.14, 0.0]`. -/
def FREQS : Fin 6 → ℚ := ![0, 11/100, 13/100, 1/10, 7/50, 0]

/-- This script's `envelope`, edge fraction 0.4. -/
def envelope (t : ℚ) : ℚ := envelopeAux RAMP DURATION (2/5) t

/-- The declared `BASE_POSE` as the real-valued angle list of the blocking home command. -/
def basePoseR : List ℝ := List.ofFn (fun i => ((BASE_POSE i : ℚ) : ℝ))

/-- The blocking `set_servo_angle(BASE_POSE, speed=SPEED, mvacc=ACC,
wait=True, is_radian=False)` issued on entry and in the `finally`. -/
def homeCmd : Cmd := ⟨basePoseR, (SPEED : ℝ), (ACC : ℝ), true⟩

/-- One tick: zero offset where the frequency is zero, else the phased sine,
scaled by the envelope, added to the base pose, clamped to the joint limits;
speed/acceleration scaled by `0.6 + 0.4*env`; non-blocking. -/
noncomputable def tick (phases : Fin 6 → ℝ) (t : ℚ) : Cmd :=
  let env := envelope t
  let offsets : Fin 6 → ℝ := fun i =>
    if FREQS i = 0 then 0
    else (AMPLITUDES i : ℝ) * Real.sin (2 * Real.pi * (FREQS i : ℝ) * (t : ℝ) + phases i)
  let targets : Fin 6 → ℝ := fun i =>
    pyClamp ((BASE_POSE i : ℝ) + (env : ℝ) * offsets i)
      ((jointLimitsF i).1 : ℝ) ((jointLimitsF i).2 : ℝ)
  ⟨List.ofFn targets, ((SPEED * (3/5 + 2/5 * env) : ℚ) : ℝ),
   ((ACC * (3/5 + 2/5 * env) : ℚ) : ℝ), false⟩

/-- Embeds `main(ip=None)`: blocking home, the `try`-wrapped tick loop (phases are
this run's random draws), and the `finally` home; no `except` clause, so every
injected exception propagates. -/
noncomputable def main (phases : Fin 6 → ℝ) (times : List ℚ) (raiseAt : Option (ℕ × ExcKind)) :
    Option ScriptRun :=
  scriptMainAux homeCmd (runTickLoop (tick phases) PRE_DELAY DURATION raiseAt times 0) false

end breathingMotion

/-! ### `examples/curiosity_tilt.py` -/

namespace curiosityTilt

def BASE_POSE : Fin 6 → ℚ := ![0, 0, 180, 0, 0, 0]

def SPEED : ℚ := 80

def ACC : ℚ := 180

/-- Source: `PRE_DELAY = 1.0`. -/
def PRE_DELAY : ℚ := 1

def DURATION : ℚ := 45

def RAMP : ℚ := 6

/-- This script's `envelope`, edge fraction 0.4. -/
def envelope (t : ℚ) : ℚ := envelopeAux RAMP DURATION (2/5) t

def basePoseR : List ℝ := List.ofFn (fun i => ((BASE_POSE i : ℚ) : ℝ))

def homeCmd : Cmd := ⟨basePoseR, (SPEED : ℝ), (ACC : ℝ), true⟩

/-- One tick: J1/J4 tilt and J2 lean sines (with this run's random phases),
blended as `base + env*(target - base)`, clamped; speed/acceleration scaled by
`0.6 + 0.4*env`; non-blocking. -/
noncomputable def tick (phaseJ1 phaseJ4 leanPhase : ℝ) (t : ℚ) : Cmd :=
  let env := envelope t
  let j1 : ℝ := 12 * Real.sin (2 * Real.pi * ((11/50 : ℚ) : ℝ) * (t : ℝ) + phaseJ1)
  let j4 : ℝ := 8 * Real.sin (2 * Real.pi * ((3/10 : ℚ) : ℝ) * (t : ℝ) + phaseJ4)
  let j2 : ℝ := 3 * Real.sin (2 * Real.pi * ((9/50 : ℚ) : ℝ) * (t : ℝ) + leanPhase)
  let raw : Fin 6 → ℝ := ![j1, j2, (BASE_POSE 2 : ℝ), j4, 0, 0]
  let targets : Fin 6 → ℝ := fun i =>
    pyClamp ((BASE_POSE i : ℝ) + (env : ℝ) * (raw i - (BASE_POSE i : ℝ)))
      ((jointLimitsF i).1 : ℝ) ((jointLimitsF i).2 : ℝ)
  ⟨List.ofFn targets, ((SPEED * (3/5 + 2/5 * env) : ℚ) : ℝ),
   ((ACC * (3/5 + 2/5 * env) : ℚ) : ℝ), false⟩

/-- Embeds `main(ip=None)`: no `except` clause, injected exceptions propagate. -/
noncomputable def main (phaseJ1 phaseJ4 leanPhase : ℝ) (times : List ℚ)
    (raiseAt : Option (ℕ × ExcKind)) : Option ScriptRun :=
  scriptMainAux homeCmd
    (runTickLoop (tick phaseJ1 phaseJ4 leanPhase) PRE_DELAY DURATION raiseAt times 0) false

end curiosityTilt

/-! ### `examples/gliding_float.py` -/

namespace glidingFloat

def BASE_POSE : Fin 6 → ℚ := ![0, 0, 180, 0, 0, 0]

def SPEED : ℚ := 85

def ACC : ℚ := 180

/-- Source: `PRE_DELAY = 1.0`. -/
def PRE_DELAY : ℚ := 1

def DURATION : ℚ := 50

def RAMP : ℚ := 8

/-- Source: `FREQ = 0.32`. -/
def FREQ : ℚ := 8/25

/-- This script's `envelope`, edge fraction 0.4. -/
def envelope (t : ℚ) : ℚ := envelopeAux RAMP DURATION (2/5) t

def basePoseR : List ℝ := List.ofFn (fun i => ((BASE_POSE i : ℚ) : ℝ))

def homeCmd : Cmd := ⟨basePoseR, (SPEED : ℝ), (ACC : ℝ), true⟩

/-- One tick: the deterministic sine/cosine glide on J2/J3/J4 (J4 at
`0.92*FREQ` with phase 0.6), envelope-scaled offsets added to the base pose,
clamped; speed/acceleration scaled by `0.6 + 0.4*env`; non-blocking. -/
noncomputable def tick (t : ℚ) : Cmd :=
  let env := envelope t
  let j2 : ℝ := 12 * Real.sin (2 * Real.pi * (FREQ : ℝ) * (t : ℝ))
  let j3 : ℝ := 10 * Real.cos (2 * Real.pi * (FREQ : ℝ) * (t : ℝ))
  let j4 : ℝ := 8 * Real.sin (2 * Real.pi * ((FREQ * (23/25) : ℚ) : ℝ) * (t : ℝ) + (3/5 : ℝ))
  let offsets : Fin 6 → ℝ := ![0, j2, j3, j4, 0, 0]
  let targets : Fin 6 → ℝ := fun i =>
    pyClamp ((BASE_POSE i : ℝ) + (env : ℝ) * offsets i)
      ((jointLimitsF i).1 : ℝ) ((jointLimitsF i).2 : ℝ)
  ⟨List.ofFn targets, ((SPEED * (3/5 + 2/5 * env) : ℚ) : ℝ),
   ((ACC * (3/5 + 2/5 * env) : ℚ) : ℝ), false⟩

/-- Embeds `main(ip=None)`: no `except` clause, injected exceptions propagate. -/
noncomputable def main (times : List ℚ) (raiseAt : Option (ℕ × ExcKind)) :
    Option ScriptRun :=
  scriptMainAux homeCmd (runTickLoop tick PRE_DELAY DURATION raiseAt times 0) false

end glidingFloat

/-! ### `examples/nod_greeting.py` -/

namespace nodGreeting

def BASE_POSE : Fin 6 → ℚ := ![0, 0, 180, 0, 0, 0]

def SPEED : ℚ := 100

def ACC : ℚ := 240

/-- Source: `PRE_DELAY = 0.8`. -/
def PRE_DELAY : ℚ := 4/5

def DURATION : ℚ := 20

def RAMP : ℚ := 4

/-- This script's `envelope` — edge fraction 0.5, unlike the other scripts. -/
def envelope (t : ℚ) : ℚ := envelopeAux RAMP DURATION (1/2) t

def basePoseR : List ℝ := List.ofFn (fun i => ((BASE_POSE i : ℚ) : ℝ))

def homeCmd : Cmd := ⟨basePoseR, (SPEED : ℝ), (ACC : ℝ), true⟩

/-- One tick: J2/J3 nod sines (J2's offset is not added to the base, whose J2
entry is 0), clamped; speed/acceleration scaled by `0.6 + 0.4*env`;
non-blocking. -/
noncomputable def tick (t : ℚ) : Cmd :=
  let env := envelope t
  let j2 : ℝ := 8 * Real.sin (2 * Real.pi * ((6/5 : ℚ) : ℝ) * (t : ℝ))
  let j3 : ℝ := 4 * Real.sin (2 * Real.pi * ((13/10 : ℚ) : ℝ) * (t : ℝ))
  let raw : Fin 6 → ℝ :=
    ![(BASE_POSE 0 : ℝ), (env : ℝ) * j2, (BASE_POSE 2 : ℝ) + (env : ℝ) * j3,
      (BASE_POSE 3 : ℝ), (BASE_POSE 4 : ℝ), (BASE_POSE 5 : ℝ)]
  let targets : Fin 6 → ℝ := fun i =>
    pyClamp (raw i) ((jointLimitsF i).1 : ℝ) ((jointLimitsF i).2 : ℝ)
  ⟨List.ofFn targets, ((SPEED * (3/5 + 2/5 * env) : ℚ) : ℝ),
   ((ACC * (3/5 + 2/5 * env) : ℚ) : ℝ), false⟩

/-- Embeds `main(ip=None)`: no `except` clause, injected exceptions propagate. -/
noncomputable def main (times : List ℚ) (raiseAt : Option (ℕ × ExcKind)) :
    Option ScriptRun :=
  scriptMainAux homeCmd (runTickLoop tick PRE_DELAY DURATION raiseAt times 0) false

end nodGreeting

/-! ### `examples/pendulum_example.py` -/

namespace pendulumExample

def NEUTRAL : Fin 6 → ℚ := ![0, 0, 0, 0, 0, 0]

def BASE_SPEED_DEG_S : ℚ := 60

def BASE_ACC_DEG_S2 : ℚ := 200

def RUN_TIME_SEC : ℚ := 30

/-- Source: `SWING_FREQUENCY_HZ = 0.25`. -/
def SWING_FREQUENCY_HZ : ℚ := 1/4

def neutralR : List ℝ := List.ofFn (fun i => ((NEUTRAL i : ℚ) : ℝ))

def homeCmd : Cmd := ⟨neutralR, (BASE_SPEED_DEG_S : ℝ), (BASE_ACC_DEG_S2 : ℝ), true⟩

/-- One tick at raw elapsed time: a shared-phase sine on J2 (amplitude 15)
and J3 (amplitude 25), each clamped to its own configured limit pair; constant
speed/acceleration; non-blocking.  No envelope. -/
noncomputable def tick (e : ℚ) : Cmd :=
  let phase : ℝ := 2 * Real.pi * (SWING_FREQUENCY_HZ : ℝ) * (e : ℝ)
  let j2 : ℝ := pyClamp ((NEUTRAL 1 : ℝ) + 15 * Real.sin phase)
    ((jointLimitsF 1).1 : ℝ) ((jointLimitsF 1).2 : ℝ)
  let j3 : ℝ := pyClamp ((NEUTRAL 2 : ℝ) + 25 * Real.sin phase)
    ((jointLimitsF 2).1 : ℝ) ((jointLimitsF 2).2 : ℝ)
  ⟨[(NEUTRAL 0 : ℝ), j2, j3, (NEUTRAL 3 : ℝ), (NEUTRAL 4 : ℝ), (NEUTRAL 5 : ℝ)],
   (BASE_SPEED_DEG_S : ℝ), (BASE_ACC_DEG_S2 : ℝ), false⟩

/-- Embeds `main(ip=None)`: `except KeyboardInterrupt: pass`, so a `KeyboardInterrupt`
does not propagate but any other exception does; the `finally` parks at
`NEUTRAL` in both cases. -/
noncomputable def main (times : List ℚ) (raiseAt : Option (ℕ × ExcKind)) :
    Option ScriptRun :=
  scriptMainAux homeCmd (runPendulumLoop tick RUN_TIME_SEC raiseAt times 0) true

end pendulumExample

/-! ### `examples/pendulum_wave_stick.py` -/

namespace pendulumWaveStick

def BASE_POSE : Fin 6 → ℚ := ![0, 0, 180, 0, 0, 0]

def BASE_SPEED : ℚ := 90

def BASE_ACC : ℚ := 220

/-- Source: `PRE_DELAY = 2.0`. -/
def PRE_DELAY : ℚ := 2

def RAMP_TIME : ℚ := 10

/-- Source: `DURATION_SEC` is assigned 30.0 and immediately reassigned — the live value
is 50.0 (the 30.0 assignment is dead). -/
def DURATION_SEC : ℚ := 50

def AMPLITUDES : Fin 6 → ℚ := ![40, 32, 18, 26, 24, 20]

/-- Source: `FREQS = [0.4, 0.5, 0.55, 0.6, 0.65, 0.7]`. -/
def FREQS : Fin 6 → ℚ := ![2/5, 1/2, 11/20, 3/5, 13/20, 7/10]

/-- The inline envelope of this script's loop body: plain min of the two
ramps (no clamp at 0; `ramp_out` defaults to 1.0 when `DURATION_SEC <= 0`),
then smootherstepped. -/
def envInline (t : ℚ) : ℚ :=
  let rampIn := min 1 (t / RAMP_TIME)
  let rampOut := if DURATION_SEC > 0 then min 1 ((DURATION_SEC - t) / RAMP_TIME) else 1
  smootherstep (min rampIn rampOut)

def basePoseR : List ℝ := List.ofFn (fun i => ((BASE_POSE i : ℚ) : ℝ))

def homeCmd : Cmd := ⟨basePoseR, (BASE_SPEED : ℝ), (BASE_ACC : ℝ), true⟩

/-- One tick: per-joint sines with the envelope folded into each offset
(`amplitude * env * sin(phase)`), added to the base pose, clamped;
speed/acceleration scaled by `0.6 + 0.4*env`; non-blocking. -/
noncomputable def tick (t : ℚ) : Cmd :=
  let env := envInline t
  let offsets : Fin 6 → ℝ := fun i =>
    if FREQS i = 0 then 0
    else (AMPLITUDES i : ℝ) * (env : ℝ) * Real.sin (2 * Real.pi * (FREQS i : ℝ) * (t : ℝ))
  let targets : Fin 6 → ℝ := fun i =>
    pyClamp ((BASE_POSE i : ℝ) + offsets i)
      ((jointLimitsF i).1 : ℝ) ((jointLimitsF i).2 : ℝ)
  ⟨List.ofFn targets, ((BASE_SPEED * (3/5 + 2/5 * env) : ℚ) : ℝ),
   ((BASE_ACC * (3/5 + 2/5 * env) : ℚ) : ℝ), false⟩

/-- Embeds `main(ip=None)`: `except KeyboardInterrupt: pass`, so a `KeyboardInterrupt`
does not propagate but any other exception does; the `finally` returns to
`BASE_POSE` in both cases. -/
noncomputable def main (times : List ℚ) (raiseAt : Option (ℕ × ExcKind)) :
    Option ScriptRun :=
  scriptMainAux homeCmd (runTickLoop tick PRE_DELAY DURATION_SEC raiseAt times 0) true

end pendulumWaveStick

/-! ### `examples/swaying_grass.py` -/

namespace swayingGrass

def BASE_POSE : Fin 6 → ℚ := ![0, 0, 180, 0, 0, 0]

def SPEED : ℚ := 85

def ACC : ℚ := 180

/-- Source: `PRE_DELAY = 1.0`. -/
def PRE_DELAY : ℚ := 1

def DURATION : ℚ := 50

def RAMP : ℚ := 8

def AMPLITUDES : Fin 6 → ℚ := ![6, 10, 14, 6, 3, 0]

/-- Source: `FREQS = [0.10, 0.15, 0.17, 0.20, 0.22, 0.0]`. -/
def FREQS : Fin 6 → ℚ := ![1/10, 3/20, 17/100, 1/5, 11/50, 0]

/-- Source: `PHASE_STEP = 0.45` radians of per-joint phase lag. -/
def PHASE_STEP : ℚ := 9/20

/-- This script's `envelope`, edge fraction 0.4. -/
def envelope (t : ℚ) : ℚ := envelopeAux RAMP DURATION (2/5) t

def basePoseR : List ℝ := List.ofFn (fun i => ((BASE_POSE i : ℚ) : ℝ))

def homeCmd : Cmd := ⟨basePoseR, (SPEED : ℝ), (ACC : ℝ), true⟩

/-- One tick: staggered sines with per-joint phase `i * PHASE_STEP`,
envelope-scaled offsets added to the base pose, clamped; speed/acceleration
scaled by `0.6 + 0.4*env`; non-blocking. -/
noncomputable def tick (t : ℚ) : Cmd :=
  let env := envelope t
  let offsets : Fin 6 → ℝ := fun i =>
    if FREQS i = 0 then 0
    else (AMPLITUDES i : ℝ) *
      Real.sin (2 * Real.pi * (FREQS i : ℝ) * (t : ℝ) + (i.val : ℝ) * (PHASE_STEP : ℝ))
  let targets : Fin 6 → ℝ := fun i =>
    pyClamp ((BASE_POSE i : ℝ) + (env : ℝ) * offsets i)
      ((jointLimitsF i).1 : ℝ) ((jointLimitsF i).2 : ℝ)
  ⟨List.ofFn targets, ((SPEED * (3/5 + 2/5 * env) : ℚ) : ℝ),
   ((ACC * (3/5 + 2/5 * env) : ℚ) : ℝ), false⟩

/-- Embeds `main(ip=None)`: no `except` clause, injected exceptions propagate. -/
noncomputable def main (times : List ℚ) (raiseAt : Option (ℕ × ExcKind)) :
    Option ScriptRun :=
  scriptMainAux homeCmd (runTickLoop tick PRE_DELAY DURATION raiseAt times 0) false

end swayingGrass

/-- C2: for each of the seven bundled scripts, every completed run of `main` —
the loop finishing normally, or an exception injected at any iteration of the
per-tick loop — ends with the blocking home command; and each script's home
command is blocking (`wait=True`) with its declared `BASE_POSE`/`NEUTRAL`
6-vector as target. -/
theorem scripts_home_finalizer :
    (∀ (phases : Fin 6 → ℝ) times raiseAt r,
        breathingMotion.main phases times raiseAt = some r →
        r.cmds.getLast? = some breathingMotion.homeCmd) ∧
    (∀ (p1 p4 pl : ℝ) times raiseAt r,
        curiosityTilt.main p1 p4 pl times raiseAt = some r →
        r.cmds.getLast? = some curiosityTilt.homeCmd) ∧
    (∀ times raiseAt r, glidingFloat.main times raiseAt = some r →
        r.cmds.getLast? = some glidingFloat.homeCmd) ∧
    (∀ times raiseAt r, nodGreeting.main times raiseAt = some r →
        r.cmds.getLast? = some nodGreeting.homeCmd) ∧
    (∀ times raiseAt r, pendulumExample.main times raiseAt = some r →
        r.cmds.getLast? = some pendulumExample.homeCmd) ∧
    (∀ times raiseAt r, pendulumWaveStick.main times raiseAt = some r →
        r.cmds.getLast? = some pendulumWaveStick.homeCmd) ∧
    (∀ times raiseAt r, swayingGrass.main times raiseAt = some r →
        r.cmds.getLast? = some swayingGrass.homeCmd) ∧
    (breathingMotion.homeCmd.angles = breathingMotion.basePoseR ∧
      breathingMotion.homeCmd.wait = true) ∧
    (curiosityTilt.homeCmd.angles = curiosityTilt.basePoseR ∧
      curiosityTilt.homeCmd.wait = true) ∧
    (glidingFloat.homeCmd.angles = glidingFloat.basePoseR ∧
      glidingFloat.homeCmd.wait = true) ∧
    (nodGreeting.homeCmd.angles = nodGreeting.basePoseR ∧
      nodGreeting.homeCmd.wait = true) ∧
    (pendulumExample.homeCmd.angles = pendulumExample.neutralR ∧
      pendulumExample.homeCmd.wait = true) ∧
    (pendulumWaveStick.homeCmd.angles = pendulumWaveStick.basePoseR ∧
      pendulumWaveStick.homeCmd.wait = true) ∧
    (swayingGrass.homeCmd.angles = swayingGrass.basePoseR ∧
      swayingGrass.homeCmd.wait = true) := by
  refine ⟨?_, ?_, ?_, ?_, ?_, ?_, ?_,
    ⟨rfl, rfl⟩, ⟨rfl, rfl⟩, ⟨rfl, rfl⟩, ⟨rfl, rfl⟩, ⟨rfl, rfl⟩, ⟨rfl, rfl⟩, ⟨rfl, rfl⟩⟩
  · intro phases times raiseAt r h
    exact scriptMainAux_getLast _ _ _ r h
  · intro p1 p4 pl times raiseAt r h
    exact scriptMainAux_getLast _ _ _ r h
  · intro times raiseAt r h
    exact scriptMainAux_getLast _ _ _ r h
  · intro times raiseAt r h
    exact scriptMainAux_getLast _ _ _ r h
  · intro times raiseAt r h
    exact scriptMainAux_getLast _ _ _ r h
  · intro times raiseAt r h
    exact scriptMainAux_getLast _ _ _ r h
  · intro times raiseAt r h
    exact scriptMainAux_getLast _ _ _ r h

/-- C2 witness: each script's `main` evaluated on one observed time sample
with an exception injected at the first loop iteration; the finalizer is the
last command of every resulting trace. -/
theorem scripts_home_finalizer_witness :
    (∃ r, breathingMotion.main (fun _ => 0) [0] (some (0, ExcKind.generic)) = some r ∧
        r.cmds.getLast? = some breathingMotion.homeCmd) ∧
    (∃ r, curiosityTilt.main 0 0 0 [0] (some (0, ExcKind.generic)) = some r ∧
        r.cmds.getLast? = some curiosityTilt.homeCmd) ∧
    (∃ r, glidingFloat.main [0] (some (0, ExcKind.generic)) = some r ∧
        r.cmds.getLast? = some glidingFloat.homeCmd) ∧
    (∃ r, nodGreeting.main [0] (some (0, ExcKind.generic)) = some r ∧
        r.cmds.getLast? = some nodGreeting.homeCmd) ∧
    (∃ r, pendulumExample.main [0] (some (0, ExcKind.keyboard)) = some r ∧
        r.cmds.getLast? = some pendulumExample.homeCmd) ∧
    (∃ r, pendulumWaveStick.main [0] (some (0, ExcKind.generic)) = some r ∧
        r.cmds.getLast? = some pendulumWaveStick.homeCmd) ∧
    (∃ r, swayingGrass.main [0] (some (0, ExcKind.generic)) = some r ∧
        r.cmds.getLast? = some swayingGrass.homeCmd) :=
  ⟨⟨⟨[breathingMotion.homeCmd, breathingMotion.homeCmd], true⟩, rfl,
      scripts_home_finalizer.1 (fun _ => 0) [0] (some (0, ExcKind.generic)) _ rfl⟩,
    ⟨⟨[curiosityTilt.homeCmd, curiosityTilt.homeCmd], true⟩, rfl,
      scripts_home_finalizer.2.1 0 0 0 [0] (some (0, ExcKind.generic)) _ rfl⟩,
    ⟨⟨[glidingFloat.homeCmd, glidingFloat.homeCmd], true⟩, rfl,
      scripts_home_finalizer.2.2.1 [0] (some (0, ExcKind.generic)) _ rfl⟩,
    ⟨⟨[nodGreeting.homeCmd, nodGreeting.homeCmd], true⟩, rfl,
      scripts_home_finalizer.2.2.2.1 [0] (some (0, ExcKind.generic)) _ rfl⟩,
    ⟨⟨[pendulumExample.homeCmd, pendulumExample.homeCmd], false⟩, rfl,
      scripts_home_finalizer.2.2.2.2.1 [0] (some (0, ExcKind.keyboard)) _ rfl⟩,
    ⟨⟨[pendulumWaveStick.homeCmd, pendulumWaveStick.homeCmd], true⟩, rfl,
      scripts_home_finalizer.2.2.2.2.2.1 [0] (some (0, ExcKind.generic)) _ rfl⟩,
    ⟨⟨[swayingGrass.homeCmd, swayingGrass.homeCmd], true⟩, rfl,
      scripts_home_finalizer.2.2.2.2.2.2.1 [0] (some (0, ExcKind.generic)) _ rfl⟩⟩

/-- C6: every bundled script defining `envelope` (breathing, curiosity,
gliding, nod, swaying — all with `RAMP > 0` and `DURATION > 0`) satisfies:
the envelope is `smootherstep(min(ramp_in, ramp_out))` with
`edge = min(RAMP, DURATION*frac)` (frac 0.4, or 0.5 for the nod script) and
`smootherstep(x) = x³(6x² − 15x + 10)`; it is 0 at `t = 0` and at
`t = DURATION`; it is 1 on the whole plateau `edge ≤ t ≤ DURATION − edge`;
and for breathing (`RAMP=8, DURATION=60`) the midpoint value `envelope 30`
is 1. -/
theorem envelopes_spec :
    (∀ ramp duration frac : ℚ, 0 < duration → ∀ t : ℚ,
        envelopeAux ramp duration frac t =
          smootherstep (min (min 1 (max 0 (t / min ramp (duration * frac))))
            (min 1 (max 0 ((duration - t) / min ramp (duration * frac)))))) ∧
    (∀ x : ℚ, smootherstep x = x * x * x * (x * (6 * x - 15) + 10)) ∧
    (breathingMotion.envelope 0 = 0 ∧ breathingMotion.envelope 60 = 0 ∧
      (∀ t : ℚ, 8 ≤ t → t ≤ 52 → breathingMotion.envelope t = 1) ∧
      breathingMotion.envelope 30 = 1) ∧
    (curiosityTilt.envelope 0 = 0 ∧ curiosityTilt.envelope 45 = 0 ∧
      ∀ t : ℚ, 6 ≤ t → t ≤ 39 → curiosityTilt.envelope t = 1) ∧
    (glidingFloat.envelope 0 = 0 ∧ glidingFloat.envelope 50 = 0 ∧
      ∀ t : ℚ, 8 ≤ t → t ≤ 42 → glidingFloat.envelope t = 1) ∧
    (nodGreeting.envelope 0 = 0 ∧ nodGreeting.envelope 20 = 0 ∧
      ∀ t : ℚ, 4 ≤ t → t ≤ 16 → nodGreeting.envelope t = 1) ∧
    (swayingGrass.envelope 0 = 0 ∧ swayingGrass.envelope 50 = 0 ∧
      ∀ t : ℚ, 8 ≤ t → t ≤ 42 → swayingGrass.envelope t = 1) := by
  have breathingPlateau : ∀ t : ℚ, 8 ≤ t → t ≤ 52 → breathingMotion.envelope t = 1 := by
    intro t h1 h2
    have hmin : min (8 : ℚ) (60 * (2/5)) = 8 := by norm_num
    refine envelopeAux_plateau 8 60 (2/5) (by norm_num) (by norm_num) (by norm_num) t ?_ ?_
    · rw [hmin]; exact h1
    · rw [hmin]; linarith
  refine ⟨fun ramp duration frac hd t => envelopeAux_formula ramp duration frac hd t,
    fun x => rfl,
    ⟨envelopeAux_zero 8 60 (2/5) (by norm_num),
      envelopeAux_duration 8 60 (2/5) (by norm_num), breathingPlateau,
      breathingPlateau 30 (by norm_num) (by norm_num)⟩,
    ⟨envelopeAux_zero 6 45 (2/5) (by norm_num),
      envelopeAux_duration 6 45 (2/5) (by norm_num), ?_⟩,
    ⟨envelopeAux_zero 8 50 (2/5) (by norm_num),
      envelopeAux_duration 8 50 (2/5) (by norm_num), ?_⟩,
    ⟨envelopeAux_zero 4 20 (1/2) (by norm_num),
      envelopeAux_duration 4 20 (1/2) (by norm_num), ?_⟩,
    ⟨envelopeAux_zero 8 50 (2/5) (by norm_num),
      envelopeAux_duration 8 50 (2/5) (by norm_num), ?_⟩⟩
  · intro t h1 h2
    have hmin : min (6 : ℚ) (45 * (2/5)) = 6 := by norm_num
    refine envelopeAux_plateau 6 45 (2/5) (by norm_num) (by norm_num) (by norm_num) t ?_ ?_
    · rw [hmin]; exact h1
    · rw [hmin]; linarith
  · intro t h1 h2
    have hmin : min (8 : ℚ) (50 * (2/5)) = 8 := by norm_num
    refine envelopeAux_plateau 8 50 (2/5) (by norm_num) (by norm_num) (by norm_num) t ?_ ?_
    · rw [hmin]; exact h1
    · rw [hmin]; linarith
  · intro t h1 h2
    have hmin : min (4 : ℚ) (20 * (1/2)) = 4 := by norm_num
    refine envelopeAux_plateau 4 20 (1/2) (by norm_num) (by norm_num) (by norm_num) t ?_ ?_
    · rw [hmin]; exact h1
    · rw [hmin]; linarith
  · intro t h1 h2
    have hmin : min (8 : ℚ) (50 * (2/5)) = 8 := by norm_num
    refine envelopeAux_plateau 8 50 (2/5) (by norm_num) (by norm_num) (by norm_num) t ?_ ?_
    · rw [hmin]; exact h1
    · rw [hmin]; linarith

/-- C6 witness: the breathing plateau clause applied at the midpoint `t = 30`
(its hypotheses `8 ≤ 30` and `30 ≤ 52` discharged numerically), and the
formula clause applied at the breathing constants. -/
theorem envelopes_spec_witness :
    breathingMotion.envelope 30 = 1 ∧
    envelopeAux 8 60 (2/5) 30 =
      smootherstep (min (min 1 (max 0 (30 / min 8 (60 * (2/5)))))
        (min 1 (max 0 ((60 - 30) / min 8 (60 * (2/5)))))) :=
  ⟨envelopes_spec.2.2.1.2.2.1 30 (by norm_num) (by norm_num),
    envelopes_spec.1 8 60 (2/5) (by norm_num) 30⟩

end LiteSim
